import Mathlib

/-!
Verification development for the ComBase predictive-model core of the
problem-interpretation repository.

The definitions below are a shallow embedding of the Python sources:
  app/models/enums.py, app/engines/combase/models.py,
  app/engines/combase/calculator.py, app/engines/combase/engine.py.

Conventions of the embedding:
* Python floats are modelled as real numbers; float literals parsed from a
  tabular record are modelled as the exact decimal rationals they denote,
  cast into the reals.
* Fallible Python code (float()/int() conversions raising ValueError, a
  KeyError on a missing column, a raised exception inside a record parse)
  is modelled with Option/Except.
* String manipulation that the record parser performs (strip, split) is
  modelled structurally on the underlying character lists, because the
  corresponding String library functions do not reduce in the kernel.
* Warning strings built with f-string interpolation are modelled as an
  inductive Warning type carrying the interpolated values, since rendering
  a real number to text is not definable; the constructor identifies which
  message the Python code emits.
-/

/-! ### app/models/enums.py -/

/-- ModelType from app/models/enums.py (growth, thermal inactivation,
non-thermal survival). -/
inductive ModelType where
  | GROWTH
  | THERMAL_INACTIVATION
  | NON_THERMAL_SURVIVAL
deriving DecidableEq

/-- ModelType.from_model_id: the mapping dict of enums.py lines 34-42 with
its .get default of GROWTH. -/
def ModelType.from_model_id (model_id : Int) : ModelType :=
  if model_id = 1 then ModelType.GROWTH
  else if model_id = 2 then ModelType.THERMAL_INACTIVATION
  else if model_id = 3 then ModelType.NON_THERMAL_SURVIVAL
  else ModelType.GROWTH

/-- Factor4Type from app/models/enums.py. -/
inductive Factor4Type where
  | NONE
  | CO2
  | NITRITE
  | LACTIC_ACID
  | ACETIC_ACID
deriving DecidableEq

/-- The str value of each Factor4Type member. -/
def Factor4Type.value : Factor4Type → String
  | Factor4Type.NONE => "none"
  | Factor4Type.CO2 => "co2"
  | Factor4Type.NITRITE => "nitrite"
  | Factor4Type.LACTIC_ACID => "lactic_acid"
  | Factor4Type.ACETIC_ACID => "acetic_acid"

/-- Factor4Type.from_string (enums.py lines 149-167): None, "NULL" (case
insensitive) and the empty string give NONE; otherwise the lowered,
stripped value is looked up in the mappings dict with default NONE. -/
def Factor4Type.from_string (value : Option String) : Factor4Type :=
  match value with
  | none => Factor4Type.NONE
  | some v =>
    if v.toUpper = "NULL" ∨ v = "" then Factor4Type.NONE
    else
      let normalized := (v.toLower).trim
      if normalized = "co2" ∨ normalized = "carbon_dioxide" then Factor4Type.CO2
      else if normalized = "nitrite" then Factor4Type.NITRITE
      else if normalized = "lactic_acid" ∨ normalized = "lactic" then Factor4Type.LACTIC_ACID
      else if normalized = "acetic_acid" ∨ normalized = "acetic" then Factor4Type.ACETIC_ACID
      else Factor4Type.NONE

/-- ComBaseOrganism from app/models/enums.py. -/
inductive ComBaseOrganism where
  | AEROMONAS_HYDROPHILA
  | BACILLUS_CEREUS
  | BACILLUS_LICHENIFORMIS
  | BACILLUS_SUBTILIS
  | BROCHOTHRIX_THERMOSPHACTA
  | CLOSTRIDIUM_BOTULINUM_NONPROT
  | CLOSTRIDIUM_BOTULINUM_PROT
  | CLOSTRIDIUM_PERFRINGENS
  | ESCHERICHIA_COLI
  | LISTERIA_MONOCYTOGENES
  | PSEUDOMONAS
  | SALMONELLA
  | SHIGELLA_FLEXNERI
  | STAPHYLOCOCCUS_AUREUS
  | YERSINIA_ENTEROCOLITICA
deriving DecidableEq

/-- The str value of each ComBaseOrganism member. -/
def ComBaseOrganism.value : ComBaseOrganism → String
  | ComBaseOrganism.AEROMONAS_HYDROPHILA => "ah"
  | ComBaseOrganism.BACILLUS_CEREUS => "bc"
  | ComBaseOrganism.BACILLUS_LICHENIFORMIS => "bl"
  | ComBaseOrganism.BACILLUS_SUBTILIS => "bs"
  | ComBaseOrganism.BROCHOTHRIX_THERMOSPHACTA => "bt"
  | ComBaseOrganism.CLOSTRIDIUM_BOTULINUM_NONPROT => "cbn"
  | ComBaseOrganism.CLOSTRIDIUM_BOTULINUM_PROT => "cbp"
  | ComBaseOrganism.CLOSTRIDIUM_PERFRINGENS => "cp"
  | ComBaseOrganism.ESCHERICHIA_COLI => "ec"
  | ComBaseOrganism.LISTERIA_MONOCYTOGENES => "lm"
  | ComBaseOrganism.PSEUDOMONAS => "ps"
  | ComBaseOrganism.SALMONELLA => "ss"
  | ComBaseOrganism.SHIGELLA_FLEXNERI => "sf"
  | ComBaseOrganism.STAPHYLOCOCCUS_AUREUS => "sa"
  | ComBaseOrganism.YERSINIA_ENTEROCOLITICA => "ye"

/-! ### app/engines/combase/models.py : constraints and model definition -/

/-- ComBaseModelConstraints (models.py lines 17-26). -/
structure ComBaseModelConstraints where
  temp_min : ℝ
  temp_max : ℝ
  ph_min : ℝ
  ph_max : ℝ
  aw_min : ℝ
  aw_max : ℝ
  factor4_min : Option ℝ := none
  factor4_max : Option ℝ := none

/-- is_temperature_valid (models.py lines 28-30). -/
def ComBaseModelConstraints.is_temperature_valid (c : ComBaseModelConstraints) (temp : ℝ) : Prop :=
  c.temp_min ≤ temp ∧ temp ≤ c.temp_max

/-- is_ph_valid (models.py lines 32-34). -/
def ComBaseModelConstraints.is_ph_valid (c : ComBaseModelConstraints) (ph : ℝ) : Prop :=
  c.ph_min ≤ ph ∧ ph ≤ c.ph_max

/-- is_aw_valid (models.py lines 36-38). -/
def ComBaseModelConstraints.is_aw_valid (c : ComBaseModelConstraints) (aw : ℝ) : Prop :=
  c.aw_min ≤ aw ∧ aw ≤ c.aw_max

/-- is_factor4_valid (models.py lines 40-44): vacuously true when either
bound is absent. -/
def ComBaseModelConstraints.is_factor4_valid (c : ComBaseModelConstraints) (value : ℝ) : Prop :=
  match c.factor4_min, c.factor4_max with
  | some lo, some hi => lo ≤ value ∧ value ≤ hi
  | _, _ => True

/-- clamp_temperature (models.py lines 46-48). -/
noncomputable def ComBaseModelConstraints.clamp_temperature (c : ComBaseModelConstraints) (temp : ℝ) : ℝ :=
  max c.temp_min (min temp c.temp_max)

/-- clamp_ph (models.py lines 50-52). -/
noncomputable def ComBaseModelConstraints.clamp_ph (c : ComBaseModelConstraints) (ph : ℝ) : ℝ :=
  max c.ph_min (min ph c.ph_max)

/-- clamp_aw (models.py lines 54-56). -/
noncomputable def ComBaseModelConstraints.clamp_aw (c : ComBaseModelConstraints) (aw : ℝ) : ℝ :=
  max c.aw_min (min aw c.aw_max)

/-- clamp_factor4 (models.py lines 58-62): a no-op when either bound is
absent. -/
noncomputable def ComBaseModelConstraints.clamp_factor4 (c : ComBaseModelConstraints) (value : ℝ) : ℝ :=
  match c.factor4_min, c.factor4_max with
  | some lo, some hi => max lo (min value hi)
  | _, _ => value

noncomputable instance (c : ComBaseModelConstraints) (temp : ℝ) :
    Decidable (c.is_temperature_valid temp) :=
  Classical.propDecidable _

noncomputable instance (c : ComBaseModelConstraints) (ph : ℝ) :
    Decidable (c.is_ph_valid ph) :=
  Classical.propDecidable _

noncomputable instance (c : ComBaseModelConstraints) (aw : ℝ) :
    Decidable (c.is_aw_valid aw) :=
  Classical.propDecidable _

noncomputable instance (c : ComBaseModelConstraints) (value : ℝ) :
    Decidable (c.is_factor4_valid value) :=
  Classical.propDecidable _

/-- ComBaseModelDefaults (models.py lines 65-72). -/
structure ComBaseModelDefaults where
  temp : ℝ
  ph : ℝ
  aw : ℝ
  nacl : ℝ
  factor4 : Option ℝ := none
  inoculum : ℝ

/-- ComBaseModel (models.py lines 75-105). -/
structure ComBaseModel where
  model_id : Int
  organism_id : String
  organism_name : String
  model_type : ModelType
  factor4_type : Factor4Type := Factor4Type.NONE
  y_max : ℝ
  h0 : ℝ
  coefficients : List ℝ
  constraints : ComBaseModelConstraints
  defaults : ComBaseModelDefaults
  std_err : ℝ
  h0_std_err : ℝ

/-- get_unique_key (models.py lines 107-109): the f-string
interpolation of model_id, organism_id and factor4_type.value joined
by underscores. -/
def ComBaseModel.get_unique_key (m : ComBaseModel) : String :=
  toString m.model_id ++ "_" ++ m.organism_id ++ "_" ++ m.factor4_type.value

/-! ### app/engines/combase/calculator.py -/

/-- The warning messages that ComBaseCalculator.calculate can append
(calculator.py lines 106-133), one constructor per f-string, carrying the
interpolated values. -/
inductive Warning where
  | temperatureClamped (value lo hi : ℝ)
  | temperatureOutOfRange (value lo hi : ℝ)
  | phClamped (value lo hi : ℝ)
  | phOutOfRange (value lo hi : ℝ)
  | awClamped (value lo hi : ℝ)
  | awOutOfRange (value lo hi : ℝ)
  | factor4Clamped (value : ℝ) (lo hi : Option ℝ)
  | factor4OutOfRange (value : ℝ) (lo hi : Option ℝ)

/-- CalculationResult (calculator.py lines 32-52). -/
structure CalculationResult where
  mu_max : ℝ
  doubling_time_hours : Option ℝ
  ln_mu : ℝ
  temperature : ℝ
  ph : ℝ
  aw : ℝ
  bw : ℝ
  factor4_value : ℝ
  model_type : ModelType
  organism_id : String
  within_range : Bool
  warnings : List Warning

/-- ComBaseCalculator (calculator.py lines 55-76): bound to one model. -/
structure ComBaseCalculator where
  model : ComBaseModel

/-- self.coefficients, set in __init__ (calculator.py line 75). -/
def ComBaseCalculator.coefficients (self : ComBaseCalculator) : List ℝ :=
  self.model.coefficients

/-- self.constraints, set in __init__ (calculator.py line 76). -/
def ComBaseCalculator.constraints (self : ComBaseCalculator) : ComBaseModelConstraints :=
  self.model.constraints

/-- The class constant LN2 = math.log(2) (calculator.py line 65). -/
noncomputable def ComBaseCalculator.LN2 : ℝ := Real.log 2

/-- _calculate_bw (calculator.py lines 162-174): aw itself for a thermal
inactivation model, sqrt(max(0, 1 - aw)) for growth and non-thermal
survival models. -/
noncomputable def ComBaseCalculator._calculate_bw (self : ComBaseCalculator) (aw : ℝ) : ℝ :=
  if self.model.model_type = ModelType.THERMAL_INACTIVATION then aw
  else Real.sqrt (max 0 (1 - aw))

/-- _calculate_ln_mu (calculator.py lines 176-214): the while loop pads the
coefficient list with zeros until it has 15 entries, then the fixed 15-term
polynomial is evaluated. -/
noncomputable def ComBaseCalculator._calculate_ln_mu (self : ComBaseCalculator)
    (tr pr bw ef4 : ℝ) : ℝ :=
  let b := self.coefficients ++ List.replicate (15 - self.coefficients.length) 0
  b.getD 0 0
    + b.getD 1 0 * tr
    + b.getD 2 0 * pr
    + b.getD 3 0 * bw
    + b.getD 4 0 * tr * pr
    + b.getD 5 0 * tr * bw
    + b.getD 6 0 * pr * bw
    + b.getD 7 0 * tr ^ 2
    + b.getD 8 0 * pr ^ 2
    + b.getD 9 0 * bw ^ 2
    + b.getD 10 0 * ef4
    + b.getD 11 0 * tr * ef4
    + b.getD 12 0 * pr * ef4
    + b.getD 13 0 * bw * ef4
    + b.getD 14 0 * ef4 ^ 2

/-- _calculate_mu (calculator.py lines 216-228): exp for growth, negated
exp for the other two model types. -/
noncomputable def ComBaseCalculator._calculate_mu (self : ComBaseCalculator) (ln_mu : ℝ) : ℝ :=
  if self.model.model_type = ModelType.GROWTH then Real.exp ln_mu
  else -Real.exp ln_mu

/-- _calculate_doubling_time (calculator.py lines 230-245): None unless the
model type is growth and mu is positive, otherwise LN2 / mu. -/
noncomputable def ComBaseCalculator._calculate_doubling_time (self : ComBaseCalculator)
    (mu_max : ℝ) : Option ℝ :=
  if self.model.model_type ≠ ModelType.GROWTH then none
  else if mu_max ≤ 0 then none
  else some (ComBaseCalculator.LN2 / mu_max)

/-- The shape shared by the four range-check blocks of calculate
(calculator.py lines 103-133): when the value is invalid the within flag
becomes False and either the clamp warning is appended and the clamped
value adopted (clamp_to_range True) or the out-of-range warning is
appended and the value kept. Returns (warnings, within_range, value). -/
noncomputable def checkDim (clamp_to_range : Bool) (valid : Prop) [Decidable valid]
    (value clamped : ℝ) (warn_clamped warn_out : Warning)
    (acc : List Warning × Bool) : List Warning × Bool × ℝ :=
  if valid then (acc.1, acc.2, value)
  else if clamp_to_range then (acc.1 ++ [warn_clamped], false, clamped)
  else (acc.1 ++ [warn_out], false, value)

/-- calculate (calculator.py lines 78-160). The four validation blocks run
in source order (temperature, pH, aw, factor4), each reassigning its input
on clamping; the factor4 block only fires when the model has a fourth
factor, which is folded into the valid proposition of its checkDim call.
Then bw, ln_mu, mu and the doubling time are derived from the
(possibly reassigned) inputs. -/
noncomputable def ComBaseCalculator.calculate (self : ComBaseCalculator)
    (temperature ph aw : ℝ) (factor4_value : ℝ := 0) (clamp_to_range : Bool := false) :
    CalculationResult :=
  let c := self.constraints
  let s1 := checkDim clamp_to_range (c.is_temperature_valid temperature) temperature
    (c.clamp_temperature temperature)
    (Warning.temperatureClamped temperature c.temp_min c.temp_max)
    (Warning.temperatureOutOfRange temperature c.temp_min c.temp_max) ([], true)
  let s2 := checkDim clamp_to_range (c.is_ph_valid ph) ph (c.clamp_ph ph)
    (Warning.phClamped ph c.ph_min c.ph_max)
    (Warning.phOutOfRange ph c.ph_min c.ph_max) (s1.1, s1.2.1)
  let s3 := checkDim clamp_to_range (c.is_aw_valid aw) aw (c.clamp_aw aw)
    (Warning.awClamped aw c.aw_min c.aw_max)
    (Warning.awOutOfRange aw c.aw_min c.aw_max) (s2.1, s2.2.1)
  let s4 := checkDim clamp_to_range
    (self.model.factor4_type = Factor4Type.NONE ∨ c.is_factor4_valid factor4_value)
    factor4_value (c.clamp_factor4 factor4_value)
    (Warning.factor4Clamped factor4_value c.factor4_min c.factor4_max)
    (Warning.factor4OutOfRange factor4_value c.factor4_min c.factor4_max) (s3.1, s3.2.1)
  let temperature := s1.2.2
  let ph := s2.2.2
  let aw := s3.2.2
  let factor4_value := s4.2.2
  let bw := self._calculate_bw aw
  let ln_mu := self._calculate_ln_mu temperature ph bw factor4_value
  let mu_max := self._calculate_mu ln_mu
  let doubling_time := self._calculate_doubling_time mu_max
  { mu_max := mu_max
    doubling_time_hours := doubling_time
    ln_mu := ln_mu
    temperature := temperature
    ph := ph
    aw := aw
    bw := bw
    factor4_value := factor4_value
    model_type := self.model.model_type
    organism_id := self.model.organism_id
    within_range := s4.2.1
    warnings := s4.1 }

/-- calculate_log_increase (calculator.py lines 247-267), the
log-change-over-duration derivation: rate times duration for non-positive
rates, divided by ln(10) for positive rates. -/
noncomputable def ComBaseCalculator.calculate_log_increase (self : ComBaseCalculator)
    (mu_max duration_hours : ℝ) : ℝ :=
  if mu_max ≤ 0 then mu_max * duration_hours
  else mu_max * duration_hours / Real.log 10

/-! ### app/engines/combase/models.py : record parsing

Python string primitives used by the parser (str.strip, str.split, float,
int) are modelled structurally on character lists so that the kernel can
evaluate them on concrete records. float() and int() are modelled on the
plain decimal literals that the tabular source uses (optional sign, digits,
optional fractional part, surrounding whitespace); the exotic inputs the
Python builtins would also accept (exponents, inf/nan, embedded
underscores) are outside the model and map to parse failure. -/

/-- Python str.strip() on a character list. -/
def trimChars (cs : List Char) : List Char :=
  ((cs.dropWhile Char.isWhitespace).reverse.dropWhile Char.isWhitespace).reverse

/-- Python str.strip(ch) on a character list: remove every leading and
trailing occurrence of ch. -/
def stripChar (ch : Char) (cs : List Char) : List Char :=
  ((cs.dropWhile (· = ch)).reverse.dropWhile (· = ch)).reverse

/-- Python str.split(sep) for a one-character separator: every occurrence
splits, empty pieces are kept, and the empty string yields one empty
piece. -/
def splitOnChar (sep : Char) : List Char → List (List Char)
  | [] => [[]]
  | c :: cs =>
    let r := splitOnChar sep cs
    if c = sep then [] :: r
    else (c :: r.headD []) :: r.tail

/-- All characters are ASCII digits. -/
def isDigitList (cs : List Char) : Bool :=
  cs.all Char.isDigit

/-- Numeric value of a digit string. -/
def digitsVal (cs : List Char) : ℕ :=
  cs.foldl (fun a c => 10 * a + (c.toNat - 48)) 0

/-- Python float() on the decimal literals of the model source, as the
exact decimal the literal denotes, in the form (mantissa, scale) meaning
mantissa / 10 ^ scale; none models a raised ValueError. The pair form is
used instead of a rational so that the kernel can evaluate a parse on a
concrete record. -/
def pyFloat (cs : List Char) : Option (Int × Nat) :=
  let t := trimChars cs
  let signed : Int × List Char :=
    match t with
    | '-' :: r => (-1, r)
    | '+' :: r => (1, r)
    | r => (1, r)
  match splitOnChar '.' signed.2 with
  | [ip] =>
    if ip.isEmpty || !(isDigitList ip) then none
    else some (signed.1 * (digitsVal ip : Int), 0)
  | [ip, fp] =>
    if (ip.isEmpty && fp.isEmpty) || !(isDigitList ip) || !(isDigitList fp) then none
    else some (signed.1 * ((digitsVal ip * 10 ^ fp.length + digitsVal fp : ℕ) : Int), fp.length)
  | _ => none

/-- The real number denoted by a parsed decimal. -/
noncomputable def decValue (d : Int × Nat) : ℝ :=
  (d.1 : ℝ) / 10 ^ d.2

/-- Python int() on decimal literals; none models a raised ValueError. -/
def pyInt (cs : List Char) : Option Int :=
  let t := trimChars cs
  let signed : Int × List Char :=
    match t with
    | '-' :: r => (-1, r)
    | '+' :: r => (1, r)
    | r => (1, r)
  if signed.2.isEmpty || !(isDigitList signed.2) then none
  else some (signed.1 * (digitsVal signed.2 : Int))

/-- Python str.strip() on a String. -/
def pyStrip (s : String) : String :=
  (trimChars s.data).asString

/-- _parse_coefficients (models.py lines 112-117): strip quotes, strip
whitespace, split on the semicolon and convert every piece with float();
any piece that fails to convert fails the whole parse. -/
def _parse_coefficients (coeff_str : String) : Option (List (Int × Nat)) :=
  let cleaned := trimChars (stripChar '"' coeff_str.data)
  (splitOnChar ';' cleaned).mapM pyFloat

/-- _parse_float (models.py lines 120-124): the sentinel NULL (case
insensitive) and blank values give the default, anything else goes through
float(). -/
def _parse_float (value : String) (default : Int × Nat := (0, 0)) : Option (Int × Nat) :=
  if value.data.map Char.toUpper = "NULL".data ∨ trimChars value.data = [] then some default
  else pyFloat value.data

/-- _parse_optional_float (models.py lines 127-131): None, NULL and blank
give the absent state; anything else goes through float(). -/
def _parse_optional_float (value : Option String) : Option (Option (Int × Nat)) :=
  match value with
  | none => some none
  | some v =>
    if v.data.map Char.toUpper = "NULL".data ∨ trimChars v.data = [] then some none
    else (pyFloat v.data).map some

/-- One record of the delimited tabular model source, as the dict that
csv.DictReader hands to _parse_row: each named column holds a string, and
none models a column that is missing from the file (an access through
row[...] then raises, an access through row.get(...) yields None). -/
structure Row where
  ModelID : Option String := none
  OrganismID : Option String := none
  Org : Option String := none
  Factor4ID : Option String := none
  TempMin : Option String := none
  TempMax : Option String := none
  PHMin : Option String := none
  PHMax : Option String := none
  AwMin : Option String := none
  AwMax : Option String := none
  Factor4Min : Option String := none
  Factor4Max : Option String := none
  DefaultTemp : Option String := none
  DefaultPH : Option String := none
  DefaultAw : Option String := none
  DefaultNaCl : Option String := none
  DefaultFactor4 : Option String := none
  DefaultInoc : Option String := none
  ymax : Option String := none
  h0 : Option String := none
  Coefficients : Option String := none
  StdErr : Option String := none
  H0StdErr : Option String := none

/-- _parse_row (models.py lines 174-213): build the ComBaseModel from one
record; none models any exception escaping the Python body (KeyError on a
missing required column, ValueError from a numeric conversion). -/
noncomputable def _parse_row (row : Row) : Option ComBaseModel := do
  let midS ← row.ModelID
  let model_id ← pyInt midS.data
  let model_type := ModelType.from_model_id model_id
  let factor4_type := Factor4Type.from_string row.Factor4ID
  let temp_min ← _parse_float (← row.TempMin)
  let temp_max ← _parse_float (← row.TempMax)
  let ph_min ← _parse_float (← row.PHMin)
  let ph_max ← _parse_float (← row.PHMax)
  let aw_min ← _parse_float (← row.AwMin)
  let aw_max ← _parse_float (← row.AwMax)
  let factor4_min ← _parse_optional_float row.Factor4Min
  let factor4_max ← _parse_optional_float row.Factor4Max
  let default_temp ← _parse_float (← row.DefaultTemp) (20, 0)
  let default_ph ← _parse_float (← row.DefaultPH) (7, 0)
  let default_aw ← _parse_float (← row.DefaultAw) (997, 3)
  let default_nacl ← _parse_float (← row.DefaultNaCl) (5, 1)
  let default_factor4 ← _parse_optional_float row.DefaultFactor4
  let default_inoc ← _parse_float (← row.DefaultInoc) (3, 0)
  let organism_id ← row.OrganismID
  let organism_name ← row.Org
  let y_max ← _parse_float (← row.ymax)
  let h0 ← _parse_float (← row.h0)
  let coefficients ← _parse_coefficients (← row.Coefficients)
  let std_err ← _parse_float (← row.StdErr) (3, 1)
  let h0_std_err ← _parse_float (← row.H0StdErr) (5, 1)
  some
    { model_id := model_id
      organism_id := pyStrip organism_id
      organism_name := pyStrip organism_name
      model_type := model_type
      factor4_type := factor4_type
      y_max := decValue y_max
      h0 := decValue h0
      coefficients := coefficients.map decValue
      constraints :=
        { temp_min := decValue temp_min
          temp_max := decValue temp_max
          ph_min := decValue ph_min
          ph_max := decValue ph_max
          aw_min := decValue aw_min
          aw_max := decValue aw_max
          factor4_min := factor4_min.map decValue
          factor4_max := factor4_max.map decValue }
      defaults :=
        { temp := decValue default_temp
          ph := decValue default_ph
          aw := decValue default_aw
          nacl := decValue default_nacl
          factor4 := default_factor4.map decValue
          inoculum := decValue default_inoc }
      std_err := decValue std_err
      h0_std_err := decValue h0_std_err }

/-! ### app/engines/combase/models.py : the registry

The _models dict of ComBaseModelRegistry is modelled as an association
list with dict semantics: dict_set overwrites in place on an existing key
and appends otherwise, dict_get returns the value stored under a key. The
secondary indices _by_organism and _by_type kept by _register_model are
not part of the embedding: neither get_model nor the load count reads
them. -/

/-- Python dict assignment d[key] = m. -/
def dict_set (models : List (String × ComBaseModel)) (key : String) (m : ComBaseModel) :
    List (String × ComBaseModel) :=
  match models with
  | [] => [(key, m)]
  | (k, v) :: rest => if k = key then (key, m) :: rest else (k, v) :: dict_set rest key m

/-- Python dict lookup d.get(key). -/
def dict_get (models : List (String × ComBaseModel)) (key : String) : Option ComBaseModel :=
  match models with
  | [] => none
  | (k, v) :: rest => if k = key then some v else dict_get rest key

/-- _register_model (models.py lines 215-230), restricted to the _models
dict: store the model under its unique composite key. -/
def _register_model (models : List (String × ComBaseModel)) (model : ComBaseModel) :
    List (String × ComBaseModel) :=
  dict_set models model.get_unique_key model

/-- The body of the load_from_csv row loop (models.py lines 159-170): a
row with a falsy ModelID (missing column or empty string) is skipped
silently, a row whose parse raises is skipped with a printed warning, and
every successfully parsed row is registered. -/
noncomputable def load_row (acc : List (String × ComBaseModel)) (row : Row) :
    List (String × ComBaseModel) :=
  match row.ModelID with
  | none => acc
  | some s =>
    if s = "" then acc
    else
      match _parse_row row with
      | none => acc
      | some model => _register_model acc model

/-- load_from_csv (models.py lines 146-172): run the row loop over the
source and return the size of the _models dict after the loop. -/
noncomputable def load_from_csv (models : List (String × ComBaseModel)) (rows : List Row) :
    List (String × ComBaseModel) × Nat :=
  let final := rows.foldl load_row models
  (final, final.length)

/-- The numeric code that get_model assigns to the requested model type
(models.py lines 249-253): the lookup dict maps the three members to 1, 2
and 3; its .get default of 1 is unreachable because the dict covers every
member. -/
def model_type_id (model_type : ModelType) : Int :=
  match model_type with
  | ModelType.GROWTH => 1
  | ModelType.THERMAL_INACTIVATION => 2
  | ModelType.NON_THERMAL_SURVIVAL => 3

/-- The composite key string that get_model rebuilds (models.py line 255),
the same f-string shape as get_unique_key. -/
def registry_key (model_type : ModelType) (organism : ComBaseOrganism)
    (factor4_type : Factor4Type) : String :=
  toString (model_type_id model_type) ++ "_" ++ organism.value ++ "_" ++ factor4_type.value

/-- get_model (models.py lines 232-256): rebuild the composite key for
the requested combination and look it up in the _models dict. -/
def get_model (models : List (String × ComBaseModel)) (organism : ComBaseOrganism)
    (model_type : ModelType) (factor4_type : Factor4Type := Factor4Type.NONE) :
    Option ComBaseModel :=
  dict_get models (registry_key model_type organism factor4_type)

/-! ### app/models/execution and app/engines/combase/engine.py -/

/-- TimeTemperatureStep (app/models/execution/base.py lines 17-33). -/
structure TimeTemperatureStep where
  temperature_celsius : ℝ
  duration_minutes : ℝ
  step_order : Int

/-- TimeTemperatureProfile (app/models/execution/base.py lines 36-77); the
construction-time pydantic validation of step ordering and total duration
is outside the engine embedding. -/
structure TimeTemperatureProfile where
  is_multi_step : Bool := false
  steps : List TimeTemperatureStep
  total_duration_minutes : ℝ

/-- ComBaseParameters (app/models/execution/combase.py lines 28-66). -/
structure ComBaseParameters where
  temperature_celsius : ℝ
  ph : ℝ
  water_activity : ℝ
  factor4_type : Factor4Type := Factor4Type.NONE
  factor4_value : Option ℝ := none

/-- ComBaseModelSelection (app/models/execution/combase.py lines 69-84). -/
structure ComBaseModelSelection where
  organism : ComBaseOrganism
  model_type : ModelType
  factor4_type : Factor4Type := Factor4Type.NONE

/-- ComBaseExecutionPayload (app/models/execution/combase.py lines 90-120),
restricted to the fields execute reads. -/
structure ComBaseExecutionPayload where
  model_selection : ComBaseModelSelection
  parameters : ComBaseParameters
  time_temperature_profile : TimeTemperatureProfile

/-- GrowthPrediction (app/models/execution/base.py lines 116-136). -/
structure GrowthPrediction where
  step_order : Int
  duration_minutes : ℝ
  temperature_celsius : ℝ
  mu_max : ℝ
  log_increase : ℝ

/-- ComBaseModelResult (app/models/execution/combase.py), the summary
block built from the first step calculation. -/
structure ComBaseModelResult where
  mu_max : ℝ
  doubling_time_hours : Option ℝ
  model_type : ModelType
  organism : ComBaseOrganism
  temperature_used : ℝ
  ph_used : ℝ
  aw_used : ℝ
  factor4_type_used : Factor4Type
  factor4_value_used : Option ℝ

/-- ComBaseExecutionResult (app/models/execution/combase.py). -/
structure ComBaseExecutionResult where
  model_result : ComBaseModelResult
  step_predictions : List GrowthPrediction
  total_log_increase : ℝ
  warnings : List Warning

/-- The exceptions ComBaseEngine.execute can raise: the RuntimeError when
the engine is not loaded (engine.py lines 78-79), the ValueError naming
the requested organism, model type and fourth factor when the registry
lookup fails (engine.py lines 90-95), and the AttributeError Python would
raise when the profile has no steps so no first-step result exists
(engine.py line 144; pydantic forbids such profiles upstream). -/
inductive EngineError where
  | notLoaded
  | modelNotFound (organism : ComBaseOrganism) (model_type : ModelType)
      (factor4_type : Factor4Type)
  | noFirstStep

/-- ComBaseEngine state (engine.py lines 35-38), restricted to what
execute reads. -/
structure ComBaseEngine where
  _registry : List (String × ComBaseModel)
  _loaded : Bool

/-- is_available (engine.py lines 44-46). -/
def ComBaseEngine.is_available (e : ComBaseEngine) : Bool :=
  e._loaded && decide (0 < e._registry.length)

/-- Loop state of the per-step for loop in execute (engine.py
lines 101-140). -/
structure ExecAcc where
  step_predictions : List GrowthPrediction
  total_log_increase : ℝ
  warnings : List Warning
  first_calc_result : Option CalculationResult

/-- The per-step for loop of execute (engine.py lines 108-140): each step
is calculated at its own temperature with the request-level pH, water
activity and fourth factor (None becoming 0.0) and clamping off; the
first calculation is retained, warnings accumulate, the duration converts
from minutes to hours, and the log change is added to the running
total. -/
noncomputable def execLoop (calculator : ComBaseCalculator) (parameters : ComBaseParameters)
    (steps : List TimeTemperatureStep) (acc : ExecAcc) : ExecAcc :=
  match steps with
  | [] => acc
  | step :: rest =>
    let calc_result := calculator.calculate step.temperature_celsius parameters.ph
      parameters.water_activity (parameters.factor4_value.getD 0) false
    let first :=
      match acc.first_calc_result with
      | none => some calc_result
      | some c => some c
    let duration_hours := step.duration_minutes / 60
    let log_increase := calculator.calculate_log_increase calc_result.mu_max duration_hours
    execLoop calculator parameters rest
      { step_predictions := acc.step_predictions ++
          [{ step_order := step.step_order
             duration_minutes := step.duration_minutes
             temperature_celsius := step.temperature_celsius
             mu_max := calc_result.mu_max
             log_increase := log_increase }]
        total_log_increase := acc.total_log_increase + log_increase
        warnings := acc.warnings ++ calc_result.warnings
        first_calc_result := first }

/-- execute (engine.py lines 68-162): availability check, registry lookup
(a miss is the hard modelNotFound failure naming the requested
combination), the per-step loop, and the summary model result built from
the first step calculation. -/
noncomputable def ComBaseEngine.execute (engine : ComBaseEngine)
    (payload : ComBaseExecutionPayload) : Except EngineError ComBaseExecutionResult :=
  if engine.is_available = false then Except.error EngineError.notLoaded
  else
    match get_model engine._registry payload.model_selection.organism
        payload.model_selection.model_type payload.model_selection.factor4_type with
    | none =>
      Except.error (EngineError.modelNotFound payload.model_selection.organism
        payload.model_selection.model_type payload.model_selection.factor4_type)
    | some model =>
      let calculator : ComBaseCalculator := { model := model }
      let acc := execLoop calculator payload.parameters
        payload.time_temperature_profile.steps
        { step_predictions := [], total_log_increase := 0, warnings := [],
          first_calc_result := none }
      match acc.first_calc_result with
      | none => Except.error EngineError.noFirstStep
      | some first =>
        Except.ok
          { model_result :=
              { mu_max := first.mu_max
                doubling_time_hours := first.doubling_time_hours
                model_type := model.model_type
                organism := payload.model_selection.organism
                temperature_used := first.temperature
                ph_used := first.ph
                aw_used := first.aw
                factor4_type_used := payload.parameters.factor4_type
                factor4_value_used := payload.parameters.factor4_value }
            step_predictions := acc.step_predictions
            total_log_increase := acc.total_log_increase
            warnings := acc.warnings }

/-- The calculation that the execute loop performs for one profile step:
the step temperature, the request-level pH, water activity and fourth
factor (None becoming 0.0), clamping off. -/
noncomputable def stepCalc (calculator : ComBaseCalculator) (p : ComBaseParameters)
    (step : TimeTemperatureStep) : CalculationResult :=
  calculator.calculate step.temperature_celsius p.ph p.water_activity
    (p.factor4_value.getD 0) false

/-- The log change the execute loop derives for one profile step, with the
duration converted from minutes to hours. -/
noncomputable def stepLog (calculator : ComBaseCalculator) (p : ComBaseParameters)
    (step : TimeTemperatureStep) : ℝ :=
  calculator.calculate_log_increase (stepCalc calculator p step).mu_max
    (step.duration_minutes / 60)

/-- The per-step prediction record the execute loop appends for one
profile step. -/
noncomputable def stepPred (calculator : ComBaseCalculator) (p : ComBaseParameters)
    (step : TimeTemperatureStep) : GrowthPrediction :=
  { step_order := step.step_order
    duration_minutes := step.duration_minutes
    temperature_celsius := step.temperature_celsius
    mu_max := (stepCalc calculator p step).mu_max
    log_increase := stepLog calculator p step }

/-! ### Concrete fixtures used by the witness theorems -/

/-- A growth-model constraint set with simple rational bounds. -/
noncomputable def cW : ComBaseModelConstraints :=
  { temp_min := 0, temp_max := 40, ph_min := 4, ph_max := 8,
    aw_min := 0.9, aw_max := 1, factor4_min := none, factor4_max := none }

/-- A concrete growth model. -/
noncomputable def mGrowth : ComBaseModel :=
  { model_id := 1
    organism_id := "lm"
    organism_name := "Listeria monocytogenes"
    model_type := ModelType.GROWTH
    factor4_type := Factor4Type.NONE
    y_max := 9
    h0 := 1
    coefficients := [1, 0, 0, 0, 0, 0, 0, 0, 0, 0, 0, 0, 0, 0, 0]
    constraints := cW
    defaults := { temp := 20, ph := 7, aw := 0.997, nacl := 0.5, factor4 := none, inoculum := 3 }
    std_err := 0.3
    h0_std_err := 0.5 }

/-- A concrete thermal-inactivation model. -/
noncomputable def mThermal : ComBaseModel :=
  { mGrowth with model_id := 2, model_type := ModelType.THERMAL_INACTIVATION }

/-- Calculator bound to the concrete growth model. -/
noncomputable def calcG : ComBaseCalculator := { model := mGrowth }

/-- Calculator bound to the concrete thermal-inactivation model. -/
noncomputable def calcT : ComBaseCalculator := { model := mThermal }

/-- A concrete registry holding the growth model under its composite key. -/
noncomputable def regW : List (String × ComBaseModel) := [("1_lm_none", mGrowth)]

/-- A loaded concrete engine over regW. -/
noncomputable def engineW : ComBaseEngine := { _registry := regW, _loaded := true }

/-- First concrete profile step: 60 minutes at 25 degrees. -/
noncomputable def step1 : TimeTemperatureStep :=
  { temperature_celsius := 25, duration_minutes := 60, step_order := 1 }

/-- Second concrete profile step: 240 minutes at 4 degrees. -/
noncomputable def step2 : TimeTemperatureStep :=
  { temperature_celsius := 4, duration_minutes := 240, step_order := 2 }

/-- A concrete two-step execution payload for the growth model. -/
noncomputable def payloadW : ComBaseExecutionPayload :=
  { model_selection :=
      { organism := ComBaseOrganism.LISTERIA_MONOCYTOGENES
        model_type := ModelType.GROWTH
        factor4_type := Factor4Type.NONE }
    parameters :=
      { temperature_celsius := 25
        ph := 7
        water_activity := 0.95
        factor4_type := Factor4Type.NONE
        factor4_value := none }
    time_temperature_profile :=
      { is_multi_step := true
        steps := [step1, step2]
        total_duration_minutes := 300 } }

/-- A concrete tabular record whose coefficient field holds only two
values. -/
def rowShort : Row :=
  { ModelID := some "1"
    OrganismID := some "lm"
    Org := some "Listeria monocytogenes"
    Factor4ID := none
    TempMin := some "0"
    TempMax := some "40"
    PHMin := some "4"
    PHMax := some "8"
    AwMin := some "0.9"
    AwMax := some "1"
    Factor4Min := none
    Factor4Max := none
    DefaultTemp := some "20"
    DefaultPH := some "7"
    DefaultAw := some "0.997"
    DefaultNaCl := some "0.5"
    DefaultFactor4 := none
    DefaultInoc := some "3"
    ymax := some "9"
    h0 := some "1"
    Coefficients := some "1;2"
    StdErr := some "0.3"
    H0StdErr := some "0.5" }

/-- The record rowShort with the 15-entry example coefficient field from
the repository tests, including its surrounding literal quotes. -/
def rowExample : Row :=
  { rowShort with
    Coefficients :=
      some "\"-26.034;0.2627;6.8356;0;0;0;1.59297;-0.00444;-0.52104;-125.70625;0;0;0;0;0\"" }

/-- The concrete growth model with a two-entry coefficient list. -/
noncomputable def mShort : ComBaseModel :=
  { mGrowth with coefficients := [1, 2] }

/-- A blank tabular record: every column is missing, so its ModelID is
falsy and the load loop skips it. -/
def rowBad : Row := {}

/-- The record rowShort with the numeric model-type code 7, outside the
three codes the ComBase scheme defines. -/
def row7 : Row := { rowShort with ModelID := some "7" }

/-- The registry that loading the single code-7 record builds. -/
noncomputable def reg7 : List (String × ComBaseModel) := (load_from_csv [] [row7]).1

/-- A concrete model definition carrying the numeric code 7. -/
noncomputable def m7 : ComBaseModel := { mGrowth with model_id := 7 }

/-- Well-formedness of the registry dict: every entry is stored under the
unique composite key of its own model, which holds for every registry the
load loop builds because _register_model stores under get_unique_key. -/
def RegistryWF (models : List (String × ComBaseModel)) : Prop :=
  ∀ p ∈ models, p.1 = p.2.get_unique_key

/-- A payload whose model selection is absent from regW. -/
noncomputable def payloadMissing : ComBaseExecutionPayload :=
  { payloadW with
    model_selection :=
      { organism := ComBaseOrganism.SALMONELLA
        model_type := ModelType.GROWTH
        factor4_type := Factor4Type.NONE } }

/-! ### Theorems -/

theorem replicate_getD_zero (k j : Nat) : (List.replicate k (0 : ℝ)).getD j 0 = 0 := by
  induction k generalizing j with
  | zero => simp
  | succ k ih =>
    cases j with
    | zero => simp
    | succ j => simpa using ih j

theorem pad_coeffs_getD (l : List ℝ) (i : Nat) :
    (l ++ List.replicate (15 - l.length) 0).getD i 0 = l.getD i 0 := by
  rcases lt_or_ge i l.length with h | h
  · exact List.getD_append _ _ _ _ h
  · rw [List.getD_eq_default _ _ h, List.getD_append_right _ _ _ _ h]
    exact replicate_getD_zero _ _

/-- Claim C1: for every model and all real inputs T, P, bw, F, the ln(rate)
computed by the calculator equals the fixed 15-term polynomial with the
coefficients taken in stored index order, missing trailing coefficients
acting as zeros. -/
theorem C1_ln_rate_polynomial (self : ComBaseCalculator) (T P bw F : ℝ) :
    self._calculate_ln_mu T P bw F =
      self.model.coefficients.getD 0 0
      + self.model.coefficients.getD 1 0 * T
      + self.model.coefficients.getD 2 0 * P
      + self.model.coefficients.getD 3 0 * bw
      + self.model.coefficients.getD 4 0 * (T * P)
      + self.model.coefficients.getD 5 0 * (T * bw)
      + self.model.coefficients.getD 6 0 * (P * bw)
      + self.model.coefficients.getD 7 0 * T ^ 2
      + self.model.coefficients.getD 8 0 * P ^ 2
      + self.model.coefficients.getD 9 0 * bw ^ 2
      + self.model.coefficients.getD 10 0 * F
      + self.model.coefficients.getD 11 0 * (T * F)
      + self.model.coefficients.getD 12 0 * (P * F)
      + self.model.coefficients.getD 13 0 * (bw * F)
      + self.model.coefficients.getD 14 0 * F ^ 2 := by
  unfold ComBaseCalculator._calculate_ln_mu ComBaseCalculator.coefficients
  simp only [pad_coeffs_getD]
  ring

/-- Claim C2: growth calculators return rate = exp(ln rate) > 0 with
doubling time ln(2)/rate for positive rate; thermal-inactivation and
non-thermal-survival calculators return rate = -exp(ln rate) which is
nonpositive, with doubling time None. -/
theorem C2_rate_sign_and_doubling_time (self : ComBaseCalculator) (T P A F : ℝ)
    (clamp : Bool) :
    (self.model.model_type = ModelType.GROWTH →
      (self.calculate T P A F clamp).mu_max =
        Real.exp (self.calculate T P A F clamp).ln_mu ∧
      0 < (self.calculate T P A F clamp).mu_max ∧
      (0 < (self.calculate T P A F clamp).mu_max →
        (self.calculate T P A F clamp).doubling_time_hours =
          some (Real.log 2 / (self.calculate T P A F clamp).mu_max))) ∧
    (self.model.model_type ≠ ModelType.GROWTH →
      (self.calculate T P A F clamp).mu_max =
        -Real.exp (self.calculate T P A F clamp).ln_mu ∧
      (self.calculate T P A F clamp).mu_max ≤ 0 ∧
      (self.calculate T P A F clamp).doubling_time_hours = none) := by
  have hmu : (self.calculate T P A F clamp).mu_max =
      self._calculate_mu ((self.calculate T P A F clamp).ln_mu) := rfl
  have hdt : (self.calculate T P A F clamp).doubling_time_hours =
      self._calculate_doubling_time ((self.calculate T P A F clamp).mu_max) := rfl
  constructor
  · intro hg
    have h1 : (self.calculate T P A F clamp).mu_max =
        Real.exp (self.calculate T P A F clamp).ln_mu := by
      rw [hmu]; unfold ComBaseCalculator._calculate_mu; rw [if_pos hg]
    refine ⟨h1, ?_, ?_⟩
    · rw [h1]; exact Real.exp_pos _
    · intro hpos
      rw [hdt]
      unfold ComBaseCalculator._calculate_doubling_time
      rw [if_neg (by simp [hg]), if_neg (not_le.mpr hpos)]
      unfold ComBaseCalculator.LN2
      rfl
  · intro hng
    have h1 : (self.calculate T P A F clamp).mu_max =
        -Real.exp (self.calculate T P A F clamp).ln_mu := by
      rw [hmu]; unfold ComBaseCalculator._calculate_mu; rw [if_neg hng]
    refine ⟨h1, ?_, ?_⟩
    · rw [h1]
      exact neg_nonpos.mpr (Real.exp_pos _).le
    · rw [hdt]
      unfold ComBaseCalculator._calculate_doubling_time
      rw [if_pos hng]

/-- Witness for C2 at concrete growth and thermal calculators. -/
theorem C2_witness :
    calcG.model.model_type = ModelType.GROWTH ∧
    0 < (calcG.calculate 25 7 0.95 0 false).mu_max ∧
    calcT.model.model_type ≠ ModelType.GROWTH ∧
    (calcT.calculate 60 7 0.95 0 false).doubling_time_hours = none := by
  refine ⟨rfl, ?_, ?_, ?_⟩
  · exact ((C2_rate_sign_and_doubling_time calcG 25 7 0.95 0 false).1 rfl).2.1
  · intro h
    exact ModelType.noConfusion (show ModelType.THERMAL_INACTIVATION = ModelType.GROWTH from h)
  · exact ((C2_rate_sign_and_doubling_time calcT 60 7 0.95 0 false).2
      (fun h => ModelType.noConfusion
        (show ModelType.THERMAL_INACTIVATION = ModelType.GROWTH from h))).2.2

/-- Claim C3: the water-activity term is the water activity itself for
thermal inactivation and sqrt(max(0, 1 - aw)) for growth and non-thermal
survival, which equals sqrt(1 - aw) when aw is at most 1; a calculate call
derives its bw from the (possibly clamped) water activity it carries. -/
theorem C3_water_activity_term (self : ComBaseCalculator) (aw T P A F : ℝ) (clamp : Bool) :
    (self.model.model_type = ModelType.THERMAL_INACTIVATION →
      self._calculate_bw aw = aw) ∧
    (self.model.model_type ≠ ModelType.THERMAL_INACTIVATION →
      self._calculate_bw aw = Real.sqrt (max 0 (1 - aw)) ∧
      (aw ≤ 1 → self._calculate_bw aw = Real.sqrt (1 - aw))) ∧
    (self.calculate T P A F clamp).bw =
      self._calculate_bw ((self.calculate T P A F clamp).aw) := by
  refine ⟨?_, ?_, rfl⟩
  · intro h
    unfold ComBaseCalculator._calculate_bw
    rw [if_pos h]
  · intro h
    have h1 : self._calculate_bw aw = Real.sqrt (max 0 (1 - aw)) := by
      unfold ComBaseCalculator._calculate_bw
      rw [if_neg h]
    refine ⟨h1, fun haw => ?_⟩
    rw [h1, max_eq_right (by linarith)]

/-- Witness for C3 at the concrete calculators and aw = 0.99. -/
theorem C3_witness :
    calcT.model.model_type = ModelType.THERMAL_INACTIVATION ∧
    calcT._calculate_bw 0.99 = 0.99 ∧
    calcG.model.model_type ≠ ModelType.THERMAL_INACTIVATION ∧
    (0.99 : ℝ) ≤ 1 ∧
    calcG._calculate_bw 0.99 = Real.sqrt (1 - 0.99) := by
  have hg : calcG.model.model_type ≠ ModelType.THERMAL_INACTIVATION := fun h =>
    ModelType.noConfusion (show ModelType.GROWTH = ModelType.THERMAL_INACTIVATION from h)
  refine ⟨rfl, ?_, hg, by norm_num, ?_⟩
  · exact (C3_water_activity_term calcT 0.99 25 7 0.95 0 false).1 rfl
  · exact ((C3_water_activity_term calcG 0.99 25 7 0.95 0 false).2.1 hg).2 (by norm_num)

/-- Claim C4: the log-change over a duration is rate times duration for a
nonpositive rate and rate times duration divided by ln(10) for a positive
rate. -/
theorem C4_log_change (self : ComBaseCalculator) (rate t : ℝ) :
    (rate ≤ 0 → self.calculate_log_increase rate t = rate * t) ∧
    (0 < rate → self.calculate_log_increase rate t = rate * t / Real.log 10) := by
  constructor
  · intro h
    unfold ComBaseCalculator.calculate_log_increase
    rw [if_pos h]
  · intro h
    unfold ComBaseCalculator.calculate_log_increase
    rw [if_neg (not_le.mpr h)]

/-- Witness for C4 at rates -2 and 2 with duration 3. -/
theorem C4_witness :
    ((-2 : ℝ) ≤ 0 ∧ calcG.calculate_log_increase (-2) 3 = (-2) * 3) ∧
    (0 < (2 : ℝ) ∧ calcG.calculate_log_increase 2 3 = 2 * 3 / Real.log 10) := by
  constructor
  · exact ⟨by norm_num, (C4_log_change calcG (-2) 3).1 (by norm_num)⟩
  · exact ⟨by norm_num, (C4_log_change calcG 2 3).2 (by norm_num)⟩

theorem checkDim_warnings (clamp : Bool) (valid : Prop) [Decidable valid]
    (value clamped : ℝ) (wc wo : Warning) (acc : List Warning × Bool) :
    (checkDim clamp valid value clamped wc wo acc).1 =
      acc.1 ++ (if valid then [] else if clamp then [wc] else [wo]) := by
  by_cases h : valid
  · simp [checkDim, h]
  · cases clamp <;> simp [checkDim, h]

theorem checkDim_within (clamp : Bool) (valid : Prop) [Decidable valid]
    (value clamped : ℝ) (wc wo : Warning) (acc : List Warning × Bool) :
    (checkDim clamp valid value clamped wc wo acc).2.1 = (acc.2 && decide valid) := by
  by_cases h : valid
  · simp [checkDim, h]
  · cases clamp <;> simp [checkDim, h]

theorem checkDim_value (clamp : Bool) (valid : Prop) [Decidable valid]
    (value clamped : ℝ) (wc wo : Warning) (acc : List Warning × Bool) :
    (checkDim clamp valid value clamped wc wo acc).2.2 =
      if valid then value else if clamp then clamped else value := by
  by_cases h : valid
  · simp [checkDim, h]
  · cases clamp <;> simp [checkDim, h]

theorem checkDim_warnings_mono (clamp : Bool) (valid : Prop) [Decidable valid]
    (value clamped : ℝ) (wc wo : Warning) (acc : List Warning × Bool) (w : Warning)
    (hw : w ∈ acc.1) : w ∈ (checkDim clamp valid value clamped wc wo acc).1 := by
  rw [checkDim_warnings]
  exact List.mem_append_left _ hw

theorem checkDim_warn_clamped (valid : Prop) [Decidable valid]
    (value clamped : ℝ) (wc wo : Warning) (acc : List Warning × Bool)
    (h : ¬ valid) : wc ∈ (checkDim true valid value clamped wc wo acc).1 := by
  rw [checkDim_warnings]
  simp [h]

theorem checkDim_warn_out (valid : Prop) [Decidable valid]
    (value clamped : ℝ) (wc wo : Warning) (acc : List Warning × Bool)
    (h : ¬ valid) : wo ∈ (checkDim false valid value clamped wc wo acc).1 := by
  rw [checkDim_warnings]
  simp [h]

theorem calculate_temperature_eq (self : ComBaseCalculator) (T P A F : ℝ) (clamp : Bool) :
    (self.calculate T P A F clamp).temperature =
      if self.constraints.is_temperature_valid T then T
      else if clamp then self.constraints.clamp_temperature T else T := by
  simp only [ComBaseCalculator.calculate, checkDim_value]

theorem calculate_ph_eq (self : ComBaseCalculator) (T P A F : ℝ) (clamp : Bool) :
    (self.calculate T P A F clamp).ph =
      if self.constraints.is_ph_valid P then P
      else if clamp then self.constraints.clamp_ph P else P := by
  simp only [ComBaseCalculator.calculate, checkDim_value]

theorem calculate_aw_eq (self : ComBaseCalculator) (T P A F : ℝ) (clamp : Bool) :
    (self.calculate T P A F clamp).aw =
      if self.constraints.is_aw_valid A then A
      else if clamp then self.constraints.clamp_aw A else A := by
  simp only [ComBaseCalculator.calculate, checkDim_value]

theorem calculate_factor4_eq (self : ComBaseCalculator) (T P A F : ℝ) (clamp : Bool) :
    (self.calculate T P A F clamp).factor4_value =
      if self.model.factor4_type = Factor4Type.NONE ∨ self.constraints.is_factor4_valid F then F
      else if clamp then self.constraints.clamp_factor4 F else F := by
  simp only [ComBaseCalculator.calculate, checkDim_value]

theorem calculate_within_eq (self : ComBaseCalculator) (T P A F : ℝ) (clamp : Bool) :
    (self.calculate T P A F clamp).within_range =
      (decide (self.constraints.is_temperature_valid T) &&
       decide (self.constraints.is_ph_valid P) &&
       decide (self.constraints.is_aw_valid A) &&
       decide (self.model.factor4_type = Factor4Type.NONE ∨
         self.constraints.is_factor4_valid F)) := by
  simp only [ComBaseCalculator.calculate, checkDim_within]
  simp [Bool.and_assoc]

theorem calculate_warnings_eq (self : ComBaseCalculator) (T P A F : ℝ) (clamp : Bool) :
    (self.calculate T P A F clamp).warnings =
      (if self.constraints.is_temperature_valid T then []
        else if clamp
          then [Warning.temperatureClamped T self.constraints.temp_min self.constraints.temp_max]
          else [Warning.temperatureOutOfRange T self.constraints.temp_min
            self.constraints.temp_max]) ++
      (if self.constraints.is_ph_valid P then []
        else if clamp
          then [Warning.phClamped P self.constraints.ph_min self.constraints.ph_max]
          else [Warning.phOutOfRange P self.constraints.ph_min self.constraints.ph_max]) ++
      (if self.constraints.is_aw_valid A then []
        else if clamp
          then [Warning.awClamped A self.constraints.aw_min self.constraints.aw_max]
          else [Warning.awOutOfRange A self.constraints.aw_min self.constraints.aw_max]) ++
      (if self.model.factor4_type = Factor4Type.NONE ∨ self.constraints.is_factor4_valid F
        then []
        else if clamp
          then [Warning.factor4Clamped F self.constraints.factor4_min
            self.constraints.factor4_max]
          else [Warning.factor4OutOfRange F self.constraints.factor4_min
            self.constraints.factor4_max]) := by
  simp only [ComBaseCalculator.calculate, checkDim_warnings]
  simp [List.append_assoc]

/-- Claim C5: an out-of-range dimension with clamping on yields the clamped
value and a clamp warning; with clamping off it yields the unchanged value
and an out-of-range warning; and within_range is true exactly when every
checked dimension is valid (the fourth factor is only checked when the
model has one). -/
theorem C5_range_validation (self : ComBaseCalculator) (T P A F : ℝ) (clamp : Bool) :
    (¬ self.constraints.is_temperature_valid T → clamp = true →
      (self.calculate T P A F clamp).temperature = self.constraints.clamp_temperature T ∧
      Warning.temperatureClamped T self.constraints.temp_min self.constraints.temp_max ∈
        (self.calculate T P A F clamp).warnings) ∧
    (¬ self.constraints.is_temperature_valid T → clamp = false →
      (self.calculate T P A F clamp).temperature = T ∧
      Warning.temperatureOutOfRange T self.constraints.temp_min self.constraints.temp_max ∈
        (self.calculate T P A F clamp).warnings) ∧
    (¬ self.constraints.is_ph_valid P → clamp = true →
      (self.calculate T P A F clamp).ph = self.constraints.clamp_ph P ∧
      Warning.phClamped P self.constraints.ph_min self.constraints.ph_max ∈
        (self.calculate T P A F clamp).warnings) ∧
    (¬ self.constraints.is_ph_valid P → clamp = false →
      (self.calculate T P A F clamp).ph = P ∧
      Warning.phOutOfRange P self.constraints.ph_min self.constraints.ph_max ∈
        (self.calculate T P A F clamp).warnings) ∧
    (¬ self.constraints.is_aw_valid A → clamp = true →
      (self.calculate T P A F clamp).aw = self.constraints.clamp_aw A ∧
      Warning.awClamped A self.constraints.aw_min self.constraints.aw_max ∈
        (self.calculate T P A F clamp).warnings) ∧
    (¬ self.constraints.is_aw_valid A → clamp = false →
      (self.calculate T P A F clamp).aw = A ∧
      Warning.awOutOfRange A self.constraints.aw_min self.constraints.aw_max ∈
        (self.calculate T P A F clamp).warnings) ∧
    (self.model.factor4_type ≠ Factor4Type.NONE → ¬ self.constraints.is_factor4_valid F →
      clamp = true →
      (self.calculate T P A F clamp).factor4_value = self.constraints.clamp_factor4 F ∧
      Warning.factor4Clamped F self.constraints.factor4_min self.constraints.factor4_max ∈
        (self.calculate T P A F clamp).warnings) ∧
    (self.model.factor4_type ≠ Factor4Type.NONE → ¬ self.constraints.is_factor4_valid F →
      clamp = false →
      (self.calculate T P A F clamp).factor4_value = F ∧
      Warning.factor4OutOfRange F self.constraints.factor4_min self.constraints.factor4_max ∈
        (self.calculate T P A F clamp).warnings) ∧
    ((self.calculate T P A F clamp).within_range = true ↔
      (self.constraints.is_temperature_valid T ∧ self.constraints.is_ph_valid P ∧
       self.constraints.is_aw_valid A ∧
       (self.model.factor4_type ≠ Factor4Type.NONE →
         self.constraints.is_factor4_valid F))) := by
  refine ⟨?_, ?_, ?_, ?_, ?_, ?_, ?_, ?_, ?_⟩
  · intro h hc
    subst hc
    constructor
    · rw [calculate_temperature_eq]; simp [h]
    · rw [calculate_warnings_eq]; simp [h]
  · intro h hc
    subst hc
    constructor
    · rw [calculate_temperature_eq]; simp [h]
    · rw [calculate_warnings_eq]; simp [h]
  · intro h hc
    subst hc
    constructor
    · rw [calculate_ph_eq]; simp [h]
    · rw [calculate_warnings_eq]; simp [h]
  · intro h hc
    subst hc
    constructor
    · rw [calculate_ph_eq]; simp [h]
    · rw [calculate_warnings_eq]; simp [h]
  · intro h hc
    subst hc
    constructor
    · rw [calculate_aw_eq]; simp [h]
    · rw [calculate_warnings_eq]; simp [h]
  · intro h hc
    subst hc
    constructor
    · rw [calculate_aw_eq]; simp [h]
    · rw [calculate_warnings_eq]; simp [h]
  · intro hne h hc
    subst hc
    have hor : ¬ (self.model.factor4_type = Factor4Type.NONE ∨
        self.constraints.is_factor4_valid F) := by
      intro hcon
      exact hcon.elim hne h
    constructor
    · rw [calculate_factor4_eq]; simp [hor]
    · rw [calculate_warnings_eq]; simp [hor]
  · intro hne h hc
    subst hc
    have hor : ¬ (self.model.factor4_type = Factor4Type.NONE ∨
        self.constraints.is_factor4_valid F) := by
      intro hcon
      exact hcon.elim hne h
    constructor
    · rw [calculate_factor4_eq]; simp [hor]
    · rw [calculate_warnings_eq]; simp [hor]
  · rw [calculate_within_eq]
    simp only [Bool.and_eq_true, decide_eq_true_eq]
    rw [or_iff_not_imp_left]
    tauto

/-- Witness for C5: the concrete growth calculator with temperature 100
above its maximum of 40, in both clamping modes. -/
theorem C5_witness :
    ¬ cW.is_temperature_valid 100 ∧
    (calcG.calculate 100 7 0.95 0 true).temperature = cW.clamp_temperature 100 ∧
    Warning.temperatureClamped 100 cW.temp_min cW.temp_max ∈
      (calcG.calculate 100 7 0.95 0 true).warnings ∧
    (calcG.calculate 100 7 0.95 0 false).temperature = 100 ∧
    Warning.temperatureOutOfRange 100 cW.temp_min cW.temp_max ∈
      (calcG.calculate 100 7 0.95 0 false).warnings ∧
    (calcG.calculate 100 7 0.95 0 false).within_range = false := by
  have hinv : ¬ cW.is_temperature_valid 100 := by
    simp [ComBaseModelConstraints.is_temperature_valid, cW]
    norm_num
  have h1 := (C5_range_validation calcG 100 7 0.95 0 true).1 hinv rfl
  have h2 := (C5_range_validation calcG 100 7 0.95 0 false).2.1 hinv rfl
  have h3 := (C5_range_validation calcG 100 7 0.95 0 false).2.2.2.2.2.2.2.2
  refine ⟨hinv, h1.1, h1.2, h2.1, h2.2, ?_⟩
  cases hval : (calcG.calculate 100 7 0.95 0 false).within_range with
  | false => rfl
  | true => exact absurd (h3.mp hval).1 hinv

theorem execLoop_spec (calculator : ComBaseCalculator) (p : ComBaseParameters) :
    ∀ (steps : List TimeTemperatureStep) (acc : ExecAcc),
      execLoop calculator p steps acc =
        { step_predictions := acc.step_predictions ++ steps.map (stepPred calculator p)
          total_log_increase := acc.total_log_increase + (steps.map (stepLog calculator p)).sum
          warnings := acc.warnings ++
            (steps.map (fun s => (stepCalc calculator p s).warnings)).join
          first_calc_result :=
            match acc.first_calc_result with
            | some c => some c
            | none => (steps.map (stepCalc calculator p)).head? } := by
  intro steps
  induction steps with
  | nil =>
    intro acc
    obtain ⟨sp, tl, w, f⟩ := acc
    cases f <;> simp [execLoop]
  | cons step rest ih =>
    intro acc
    obtain ⟨sp, tl, w, f⟩ := acc
    simp only [execLoop]
    rw [ih]
    cases f <;>
      simp [stepPred, stepLog, stepCalc, List.append_assoc, add_assoc]

/-- Claim C6: a successful execute call evaluates every profile step in
order at the step temperature with the request-level pH, water activity
and fourth factor and clamping off, returns the sum of the per-step log
changes (durations converted minutes to hours) as the total, and builds
the summary model result from the first step calculation. -/
theorem C6_engine_execution (engine : ComBaseEngine) (payload : ComBaseExecutionPayload)
    (model : ComBaseModel) (s0 : TimeTemperatureStep) (rest : List TimeTemperatureStep)
    (hav : engine.is_available = true)
    (hm : get_model engine._registry payload.model_selection.organism
      payload.model_selection.model_type payload.model_selection.factor4_type = some model)
    (hsteps : payload.time_temperature_profile.steps = s0 :: rest) :
    ∃ r, engine.execute payload = Except.ok r ∧
      r.step_predictions =
        payload.time_temperature_profile.steps.map (stepPred ⟨model⟩ payload.parameters) ∧
      r.total_log_increase =
        (payload.time_temperature_profile.steps.map (stepLog ⟨model⟩ payload.parameters)).sum ∧
      r.warnings =
        (payload.time_temperature_profile.steps.map
          (fun s => (stepCalc ⟨model⟩ payload.parameters s).warnings)).join ∧
      r.model_result.mu_max = (stepCalc ⟨model⟩ payload.parameters s0).mu_max ∧
      r.model_result.doubling_time_hours =
        (stepCalc ⟨model⟩ payload.parameters s0).doubling_time_hours ∧
      r.model_result.temperature_used = (stepCalc ⟨model⟩ payload.parameters s0).temperature ∧
      r.model_result.ph_used = (stepCalc ⟨model⟩ payload.parameters s0).ph ∧
      r.model_result.aw_used = (stepCalc ⟨model⟩ payload.parameters s0).aw := by
  unfold ComBaseEngine.execute
  rw [hav, hm]
  simp only [Bool.true_eq_false, if_false]
  rw [execLoop_spec, hsteps]
  simp only [List.map_cons, List.head?_cons, List.nil_append]
  refine ⟨_, rfl, ?_, ?_, ?_, rfl, rfl, rfl, rfl, rfl⟩
  · simp [hsteps]
  · simp [hsteps]
  · simp [hsteps]

/-- Witness for C6: the concrete engine and a two-step profile. -/
theorem C6_witness :
    engineW.is_available = true ∧
    get_model engineW._registry ComBaseOrganism.LISTERIA_MONOCYTOGENES ModelType.GROWTH
      Factor4Type.NONE = some mGrowth ∧
    ∃ r, engineW.execute payloadW = Except.ok r ∧
      r.total_log_increase =
        (payloadW.time_temperature_profile.steps.map (stepLog ⟨mGrowth⟩ payloadW.parameters)).sum ∧
      r.model_result.mu_max = (stepCalc ⟨mGrowth⟩ payloadW.parameters step1).mu_max := by
  refine ⟨rfl, rfl, ?_⟩
  obtain ⟨r, h1, _, h3, _, h5, _⟩ :=
    C6_engine_execution engineW payloadW mGrowth step1 [step2] rfl rfl rfl
  exact ⟨r, h1, h3, h5⟩

theorem dict_get_none_iff (models : List (String × ComBaseModel)) (key : String) :
    dict_get models key = none ↔ ∀ m : ComBaseModel, (key, m) ∉ models := by
  induction models with
  | nil => simp [dict_get]
  | cons p rest ih =>
    obtain ⟨k, v⟩ := p
    simp only [dict_get, List.mem_cons]
    by_cases h : k = key
    · subst h
      simp only [if_pos rfl]
      constructor
      · intro hcon
        exact Option.noConfusion hcon
      · intro hall
        exact ((hall v) (Or.inl rfl)).elim
    · rw [if_neg h, ih]
      constructor
      · intro hall m hm
        rcases hm with he | hrest
        · have : key = k := congrArg Prod.fst he
          exact h this.symm
        · exact hall m hrest
      · intro hall m hm
        exact hall m (Or.inr hm)

/-- Claim C9: a combination with no registry entry makes get_model return
the explicit none (never some substituted model), and execute on such a
selection stops with the modelNotFound error identifying the requested
organism, model type and fourth factor, returning no result. -/
theorem C9_model_not_found (models : List (String × ComBaseModel))
    (organism : ComBaseOrganism) (model_type : ModelType) (factor4_type : Factor4Type)
    (engine : ComBaseEngine) (payload : ComBaseExecutionPayload)
    (hmiss : ∀ m : ComBaseModel, (registry_key model_type organism factor4_type, m) ∉ models)
    (hsel : payload.model_selection =
      { organism := organism, model_type := model_type, factor4_type := factor4_type })
    (hreg : engine._registry = models)
    (hav : engine.is_available = true) :
    get_model models organism model_type factor4_type = none ∧
    engine.execute payload =
      Except.error (EngineError.modelNotFound organism model_type factor4_type) := by
  have hnone : get_model models organism model_type factor4_type = none := by
    unfold get_model
    exact (dict_get_none_iff models _).mpr hmiss
  refine ⟨hnone, ?_⟩
  unfold ComBaseEngine.execute
  rw [hav]
  simp only [Bool.true_eq_false, if_false, hsel, hreg, hnone]

/-- Witness for C9: the concrete engine asked for a salmonella model its
registry does not hold. -/
theorem C9_witness :
    get_model regW ComBaseOrganism.SALMONELLA ModelType.GROWTH Factor4Type.NONE = none ∧
    engineW.execute payloadMissing =
      Except.error (EngineError.modelNotFound ComBaseOrganism.SALMONELLA ModelType.GROWTH
        Factor4Type.NONE) := by
  have hmiss : ∀ m : ComBaseModel,
      (registry_key ModelType.GROWTH ComBaseOrganism.SALMONELLA Factor4Type.NONE, m) ∉ regW := by
    intro m hm
    rw [show regW = [("1_lm_none", mGrowth)] from rfl, List.mem_singleton] at hm
    have : registry_key ModelType.GROWTH ComBaseOrganism.SALMONELLA Factor4Type.NONE =
        "1_lm_none" := congrArg Prod.fst hm
    exact absurd this (by decide)
  exact C9_model_not_found regW ComBaseOrganism.SALMONELLA ModelType.GROWTH Factor4Type.NONE
    engineW payloadMissing hmiss rfl rfl rfl

/-- Counterexample to claim C7 as stated: the record rowShort, whose
coefficient field holds two values, is accepted by the registry load, yet
the stored ModelDefinition keeps a coefficient list of length 2, not 15;
no padding happens at parse time. -/
theorem C7_counterexample :
    (load_from_csv [] [rowShort]).2 = 1 ∧
    (_parse_row rowShort).map (fun m => m.coefficients.length) = some 2 ∧
    (2 : Nat) ≠ 15 := by
  refine ⟨rfl, rfl, by decide⟩

/-- Claim C7, amended: the coefficient field parses into one float per
semicolon-separated entry after quote stripping, and a record with fewer
than 15 entries is accepted with the stored list kept at its parsed
length; the missing trailing coefficients act as zeros only when ln(rate)
is computed, where the list is padded to exactly 15 entries; for the
15-entry example field the stored values match positionally. -/
theorem C7_coefficient_parsing (m : ComBaseModel) (T P bw F : ℝ)
    (hlen : m.coefficients.length ≤ 15) :
    ((_parse_coefficients
        "\"-26.034;0.2627;6.8356;0;0;0;1.59297;-0.00444;-0.52104;-125.70625;0;0;0;0;0\"").getD
        []).length = 15 ∧
    (_parse_row rowExample).map (fun mm => mm.coefficients.length) = some 15 ∧
    (_parse_row rowExample).map (fun mm => mm.coefficients.getD 0 0) = some (-26.034) ∧
    (_parse_row rowExample).map (fun mm => mm.coefficients.getD 1 0) = some 0.2627 ∧
    (_parse_row rowShort).map (fun mm => mm.coefficients.length) = some 2 ∧
    (m.coefficients ++ List.replicate (15 - m.coefficients.length) 0).length = 15 ∧
    ComBaseCalculator._calculate_ln_mu { model := m } T P bw F =
      ComBaseCalculator._calculate_ln_mu
        { model :=
            { m with coefficients :=
                m.coefficients ++ List.replicate (15 - m.coefficients.length) 0 } }
        T P bw F := by
  have hpadlen :
      (m.coefficients ++ List.replicate (15 - m.coefficients.length) (0 : ℝ)).length = 15 := by
    simp only [List.length_append, List.length_replicate]
    omega
  have hc0 : (_parse_row rowExample).map (fun mm => mm.coefficients.getD 0 0) =
      some (decValue (-26034, 3)) := rfl
  have hc1 : (_parse_row rowExample).map (fun mm => mm.coefficients.getD 1 0) =
      some (decValue (2627, 4)) := rfl
  refine ⟨rfl, rfl, ?_, ?_, rfl, hpadlen, ?_⟩
  · rw [hc0]
    simp only [Option.some.injEq, decValue]
    norm_num
  · rw [hc1]
    simp only [Option.some.injEq, decValue]
    norm_num
  · have h0 : 15 - (m.coefficients ++ List.replicate (15 - m.coefficients.length)
        (0 : ℝ)).length = 0 := by
      rw [hpadlen]
    simp only [ComBaseCalculator._calculate_ln_mu, ComBaseCalculator.coefficients, h0,
      List.replicate_zero, List.append_nil]

/-- Witness for the amended C7 at the concrete two-coefficient model. -/
theorem C7_witness :
    mShort.coefficients.length ≤ 15 ∧
    (mShort.coefficients ++ List.replicate (15 - mShort.coefficients.length) 0).length = 15 ∧
    ComBaseCalculator._calculate_ln_mu { model := mShort } 25 7 0.2 0 =
      ComBaseCalculator._calculate_ln_mu
        { model :=
            { mShort with coefficients :=
                mShort.coefficients ++ List.replicate (15 - mShort.coefficients.length) 0 } }
        25 7 0.2 0 := by
  have hlen : mShort.coefficients.length ≤ 15 := by
    rw [show mShort.coefficients = [(1 : ℝ), 2] from rfl]
    simp
  have h := C7_coefficient_parsing mShort 25 7 0.2 0 hlen
  exact ⟨hlen, h.2.2.2.2.2.1, h.2.2.2.2.2.2⟩

theorem dict_set_length_fresh (acc : List (String × ComBaseModel)) (k : String)
    (m : ComBaseModel) (h : dict_get acc k = none) :
    (dict_set acc k m).length = acc.length + 1 := by
  induction acc with
  | nil => simp [dict_set]
  | cons p rest ih =>
    obtain ⟨k0, v⟩ := p
    simp only [dict_get] at h
    by_cases hk : k0 = k
    · rw [if_pos hk] at h
      exact Option.noConfusion h
    · rw [if_neg hk] at h
      simp [dict_set, hk, ih h]

theorem dict_get_dict_set_ne (acc : List (String × ComBaseModel)) (k : String)
    (m : ComBaseModel) (k' : String) (h : k' ≠ k) :
    dict_get (dict_set acc k m) k' = dict_get acc k' := by
  induction acc with
  | nil =>
    simp only [dict_set, dict_get]
    rw [if_neg (fun hc : k = k' => h hc.symm)]
  | cons p rest ih =>
    obtain ⟨k0, v⟩ := p
    by_cases hk : k0 = k
    · subst hk
      simp only [dict_set, if_pos rfl, dict_get]
      rw [if_neg (fun hc => h hc.symm), if_neg (fun hc : k0 = k' => h hc.symm)]
    · simp only [dict_set, if_neg hk, dict_get]
      by_cases h0 : k0 = k'
      · rw [if_pos h0, if_pos h0]
      · rw [if_neg h0, if_neg h0, ih]

theorem load_row_skip (acc : List (String × ComBaseModel)) (row : Row)
    (h : row.ModelID = none ∨ row.ModelID = some "" ∨ _parse_row row = none) :
    load_row acc row = acc := by
  rcases h with h | h | h
  · simp [load_row, h]
  · simp [load_row, h]
  · cases hmid : row.ModelID with
    | none => simp [load_row, hmid]
    | some s =>
      by_cases hs : s = "" <;> simp [load_row, hmid, hs, h]

theorem load_row_registered (acc : List (String × ComBaseModel)) (row : Row) (s : String)
    (mm : ComBaseModel) (hs : row.ModelID = some s) (hne : s ≠ "")
    (hp : _parse_row row = some mm) :
    load_row acc row = dict_set acc mm.get_unique_key mm := by
  simp [load_row, hs, hne, hp, _register_model]

theorem load_count_aux (rows : List Row) :
    ∀ acc : List (String × ComBaseModel),
    (∀ row ∈ rows, (∃ s, row.ModelID = some s ∧ s ≠ "") ∧ _parse_row row ≠ none) →
    (rows.filterMap (fun r => (_parse_row r).map ComBaseModel.get_unique_key)).Nodup →
    (∀ r ∈ rows, ∀ mm, _parse_row r = some mm → dict_get acc mm.get_unique_key = none) →
    (rows.foldl load_row acc).length = acc.length + rows.length := by
  induction rows with
  | nil =>
    intro acc _ _ _
    simp
  | cons r rest ih =>
    intro acc hacc hnodup hfresh
    obtain ⟨⟨s, hs, hsne⟩, hpne⟩ := hacc r (List.mem_cons_self r rest)
    obtain ⟨mm, hp⟩ := Option.ne_none_iff_exists'.mp hpne
    have hmap : (fun rr => (_parse_row rr).map ComBaseModel.get_unique_key) r =
        some mm.get_unique_key := by
      simp [hp]
    have hfm : (r :: rest).filterMap (fun rr => (_parse_row rr).map ComBaseModel.get_unique_key) =
        mm.get_unique_key ::
          rest.filterMap (fun rr => (_parse_row rr).map ComBaseModel.get_unique_key) :=
      List.filterMap_cons_some hmap
    rw [hfm] at hnodup
    have hkey : dict_get acc mm.get_unique_key = none :=
      hfresh r (List.mem_cons_self r rest) mm hp
    rw [List.foldl_cons, load_row_registered acc r s mm hs hsne hp]
    rw [ih (dict_set acc mm.get_unique_key mm)
      (fun row hr => hacc row (List.mem_cons_of_mem _ hr))
      (List.Nodup.of_cons hnodup) ?_]
    · rw [dict_set_length_fresh acc mm.get_unique_key mm hkey, List.length_cons]
      omega
    · intro r' hr' mm' hp'
      have hmem : mm'.get_unique_key ∈
          rest.filterMap (fun rr => (_parse_row rr).map ComBaseModel.get_unique_key) := by
        apply List.mem_filterMap.mpr
        exact ⟨r', hr', by simp [hp']⟩
      have hne2 : mm'.get_unique_key ≠ mm.get_unique_key := by
        intro hcon
        exact (List.nodup_cons.mp hnodup).1 (hcon ▸ hmem)
      rw [dict_get_dict_set_ne acc _ mm _ hne2]
      exact hfresh r' (List.mem_cons_of_mem _ hr') mm' hp'

/-- Counterexample to claim C8 as stated: loading a source that holds two
valid records (the same record twice, hence one composite key) returns 1,
not the count 2 of valid records found in the source. -/
theorem C8_counterexample :
    (_parse_row rowShort).isSome = true ∧
    rowShort.ModelID = some "1" ∧
    (load_from_csv [] [rowShort, rowShort]).2 = 1 :=
  ⟨rfl, rfl, rfl⟩

/-- Claim C8, amended: registry load never fails as a whole because of a
bad record - a malformed record or a record with a falsy model-type
identifier is skipped and loading continues unchanged; load returns the
size of the registry dict after loading (last write wins on duplicate
composite keys), which equals the count of valid records exactly when an
empty registry loads a source whose records carry pairwise distinct
keys. -/
theorem C8_load_error_handling (models : List (String × ComBaseModel))
    (rows1 rows2 : List Row) (bad : Row) (rows : List Row)
    (hbad : bad.ModelID = none ∨ bad.ModelID = some "" ∨ _parse_row bad = none)
    (hacc : ∀ row ∈ rows, (∃ s, row.ModelID = some s ∧ s ≠ "") ∧ _parse_row row ≠ none)
    (hkeys : (rows.filterMap
      (fun r => (_parse_row r).map ComBaseModel.get_unique_key)).Nodup) :
    load_from_csv models (rows1 ++ bad :: rows2) = load_from_csv models (rows1 ++ rows2) ∧
    (load_from_csv models rows).2 = (load_from_csv models rows).1.length ∧
    (load_from_csv [] rows).2 = rows.length := by
  refine ⟨?_, rfl, ?_⟩
  · unfold load_from_csv
    rw [List.foldl_append, List.foldl_cons, load_row_skip _ bad hbad, ← List.foldl_append]
  · unfold load_from_csv
    have h := load_count_aux rows [] hacc hkeys (fun r hr mm hp => rfl)
    simpa using h

/-- Witness for the amended C8: a valid record plus a blank record load
into one model, and the blank record changes nothing. -/
theorem C8_witness :
    (rowBad.ModelID = none ∨ rowBad.ModelID = some "" ∨ _parse_row rowBad = none) ∧
    load_from_csv [] ([rowShort] ++ rowBad :: []) = load_from_csv [] ([rowShort] ++ []) ∧
    (load_from_csv [] [rowShort]).2 = 1 := by
  have hbad : rowBad.ModelID = none ∨ rowBad.ModelID = some "" ∨ _parse_row rowBad = none :=
    Or.inl rfl
  have hacc : ∀ row ∈ [rowShort],
      (∃ s, row.ModelID = some s ∧ s ≠ "") ∧ _parse_row row ≠ none := by
    intro row hr
    rw [List.mem_singleton] at hr
    subst hr
    refine ⟨⟨"1", rfl, by decide⟩, ?_⟩
    have h1 : (_parse_row rowShort).isSome = true := rfl
    exact Option.ne_none_iff_isSome.mpr h1
  have hkeys :
      ([rowShort].filterMap (fun r => (_parse_row r).map ComBaseModel.get_unique_key)).Nodup := by
    rw [show [rowShort].filterMap (fun r => (_parse_row r).map ComBaseModel.get_unique_key) =
      ["1_lm_none"] from rfl]
    exact List.nodup_singleton _
  have h := C8_load_error_handling [] [rowShort] [] rowBad [rowShort] hbad hacc hkeys
  exact ⟨hbad, h.1, h.2.2 ▸ by rfl⟩

theorem digitChar_ne_underscore (m : Nat) : Nat.digitChar m ≠ '_' := by
  by_cases h0 : m < 16
  · interval_cases m <;> decide
  · have d0 : m ≠ 0 := by omega
    have d1 : m ≠ 1 := by omega
    have d2 : m ≠ 2 := by omega
    have d3 : m ≠ 3 := by omega
    have d4 : m ≠ 4 := by omega
    have d5 : m ≠ 5 := by omega
    have d6 : m ≠ 6 := by omega
    have d7 : m ≠ 7 := by omega
    have d8 : m ≠ 8 := by omega
    have d9 : m ≠ 9 := by omega
    have d10 : m ≠ 10 := by omega
    have d11 : m ≠ 11 := by omega
    have d12 : m ≠ 12 := by omega
    have d13 : m ≠ 13 := by omega
    have d14 : m ≠ 14 := by omega
    have d15 : m ≠ 15 := by omega
    have hstar : Nat.digitChar m = '*' := by
      simp only [Nat.digitChar, d0, d1, d2, d3, d4, d5, d6, d7, d8, d9, d10, d11, d12,
        d13, d14, d15, if_false]
    rw [hstar]
    decide

theorem toDigitsCore_no_underscore :
    ∀ (f n : Nat) (ds : List Char), '_' ∉ ds → '_' ∉ Nat.toDigitsCore 10 f n ds := by
  intro f
  induction f with
  | zero =>
    intro n ds h
    simpa [Nat.toDigitsCore] using h
  | succ f ih =>
    intro n ds h
    simp only [Nat.toDigitsCore]
    split
    · intro hmem
      rcases List.mem_cons.mp hmem with h1 | h2
      · exact digitChar_ne_underscore _ h1.symm
      · exact h h2
    · apply ih
      intro hmem
      rcases List.mem_cons.mp hmem with h1 | h2
      · exact digitChar_ne_underscore _ h1.symm
      · exact h h2

theorem toDigitsCore_len_pos : ∀ (f n : Nat) (ds : List Char), 0 < f →
    ds.length + 1 ≤ (Nat.toDigitsCore 10 f n ds).length := by
  intro f
  induction f with
  | zero =>
    intro n ds h
    omega
  | succ f ih =>
    intro n ds _
    simp only [Nat.toDigitsCore]
    split
    · simp
    · rcases Nat.eq_zero_or_pos f with rfl | hf
      · simp [Nat.toDigitsCore]
      · have := ih (n / 10) (Nat.digitChar (n % 10) :: ds) hf
        simp at this
        omega

theorem nat_repr_len_ge_two (n : Nat) (h : 10 ≤ n) : 2 ≤ (Nat.repr n).length := by
  have h1 : ¬ (n / 10 = 0) := by omega
  have key : 2 ≤ (Nat.toDigitsCore 10 (n + 1) n []).length := by
    simp only [Nat.toDigitsCore, h1, if_false]
    have h2 := toDigitsCore_len_pos n (n / 10) [Nat.digitChar (n % 10)] (by omega)
    simpa using h2
  simpa [Nat.repr, Nat.toDigits, String.length, List.asString] using key

theorem nat_repr_len_pos (n : Nat) : 1 ≤ (Nat.repr n).length := by
  have := toDigitsCore_len_pos (n + 1) n [] (by omega)
  simpa [Nat.repr, Nat.toDigits, String.length, List.asString] using this

theorem nat_repr_eq_digit (m d : Nat) (hd : d < 10) (h : Nat.repr m = Nat.repr d) : m = d := by
  by_cases hm : m < 10
  · interval_cases m <;> interval_cases d <;> revert h <;> decide
  · exfalso
    have h2 := nat_repr_len_ge_two m (by omega)
    rw [h] at h2
    have h3 : (Nat.repr d).length = 1 := by interval_cases d <;> decide
    omega

theorem nat_repr_no_underscore (n : Nat) : '_' ∉ (Nat.repr n).data := by
  have := toDigitsCore_no_underscore (n + 1) n [] (by simp)
  simpa [Nat.repr, Nat.toDigits, List.asString] using this

theorem int_repr_no_underscore (x : Int) : '_' ∉ (toString x).data := by
  cases x with
  | ofNat m =>
    have h0 : toString (Int.ofNat m) = Nat.repr m := rfl
    rw [h0]
    exact nat_repr_no_underscore m
  | negSucc m =>
    have h0 : toString (Int.negSucc m) = "-" ++ Nat.repr (m + 1) := rfl
    rw [h0]
    intro hmem
    rcases List.mem_append.mp ((by simpa [String.data_append] using hmem :
        '_' ∈ "-".data ++ (Nat.repr (m + 1)).data)) with h1 | h2
    · simp at h1
    · exact nat_repr_no_underscore (m + 1) h2

theorem int_toString_eq_digit (x : Int) (d : Nat) (hd : d < 10) (h : toString x = Nat.repr d) :
    x = Int.ofNat d := by
  cases x with
  | ofNat m =>
    have h0 : toString (Int.ofNat m) = Nat.repr m := rfl
    rw [h0] at h
    exact congrArg Int.ofNat (nat_repr_eq_digit m d hd h)
  | negSucc m =>
    have h0 : toString (Int.negSucc m) = "-" ++ Nat.repr (m + 1) := rfl
    rw [h0] at h
    exfalso
    have hlen : ("-" ++ Nat.repr (m + 1)).length = 1 + (Nat.repr (m + 1)).length := by
      rw [String.length_append]
      rfl
    have h2 := nat_repr_len_pos (m + 1)
    have h3 : (Nat.repr d).length = 1 := by interval_cases d <;> decide
    have h4 := congrArg String.length h
    rw [hlen, h3] at h4
    omega

theorem sep_prefix_eq {a b u v : List Char} (ha : '_' ∉ a) (hb : '_' ∉ b)
    (h : a ++ '_' :: u = b ++ '_' :: v) : a = b ∧ u = v := by
  induction a generalizing b with
  | nil =>
    cases b with
    | nil => simpa using h
    | cons c cs =>
      simp only [List.nil_append, List.cons_append, List.cons.injEq] at h
      exact absurd (h.1 ▸ List.mem_cons_self c cs) (by simp_all)
  | cons c cs ih =>
    cases b with
    | nil =>
      simp only [List.cons_append, List.nil_append, List.cons.injEq] at h
      exact absurd (h.1 ▸ List.mem_cons_self c cs) (by intro hc; exact ha (h.1 ▸ hc))
    | cons c' cs' =>
      simp only [List.cons_append, List.cons.injEq] at h
      obtain ⟨rfl, h2⟩ := h
      have hr := ih (fun hx => ha (List.mem_cons_of_mem _ hx))
        (fun hx => hb (List.mem_cons_of_mem _ hx)) h2
      exact ⟨by rw [hr.1], hr.2⟩

theorem bind_pred {α β : Type} (o : Option α) (f : α → Option β) (P : β → Prop)
    (h : ∀ a b, f a = some b → P b) : ∀ b, o.bind f = some b → P b := by
  intro b hb
  cases o with
  | none => exact Option.noConfusion hb
  | some a => exact h a b hb

theorem parse_row_model_type (row : Row) :
    ∀ mm : ComBaseModel, _parse_row row = some mm →
      mm.model_type = ModelType.from_model_id mm.model_id := by
  unfold _parse_row
  repeat (refine bind_pred _ _ _ ?_; intro _)
  intro mm hmm
  have h := Option.some.inj hmm
  rw [← h]

theorem registry_key_model_id (m : ComBaseModel) (mt : ModelType) (org : ComBaseOrganism)
    (f4 : Factor4Type) (h : m.get_unique_key = registry_key mt org f4) :
    m.model_id = model_type_id mt := by
  unfold ComBaseModel.get_unique_key registry_key at h
  have hdata := congrArg String.data h
  have hu : ("_" : String).data = ['_'] := rfl
  simp only [String.data_append, hu, List.append_assoc, List.singleton_append] at hdata
  have hpre := (sep_prefix_eq (int_repr_no_underscore m.model_id)
    (int_repr_no_underscore (model_type_id mt)) hdata).1
  have hstr : toString m.model_id = toString (model_type_id mt) := congrArg String.mk hpre
  cases mt with
  | GROWTH => exact int_toString_eq_digit _ 1 (by omega) hstr
  | THERMAL_INACTIVATION => exact int_toString_eq_digit _ 2 (by omega) hstr
  | NON_THERMAL_SURVIVAL => exact int_toString_eq_digit _ 3 (by omega) hstr

theorem dict_get_mem (models : List (String × ComBaseModel)) (key : String) (m : ComBaseModel)
    (h : dict_get models key = some m) : (key, m) ∈ models := by
  induction models with
  | nil => exact Option.noConfusion h
  | cons p rest ih =>
    obtain ⟨k, v⟩ := p
    simp only [dict_get] at h
    by_cases hk : k = key
    · rw [if_pos hk] at h
      subst hk
      rw [Option.some.inj h]
      exact List.mem_cons_self _ _
    · rw [if_neg hk] at h
      exact List.mem_cons_of_mem _ (ih h)

theorem registry_wf_dict_set (acc : List (String × ComBaseModel)) (mdl : ComBaseModel)
    (h : RegistryWF acc) : RegistryWF (dict_set acc mdl.get_unique_key mdl) := by
  induction acc with
  | nil =>
    intro p hp
    rw [List.mem_singleton.mp hp]
  | cons q rest ih =>
    obtain ⟨k, v⟩ := q
    have hrest : RegistryWF rest := fun p hp => h p (List.mem_cons_of_mem _ hp)
    simp only [dict_set]
    by_cases hk : k = mdl.get_unique_key
    · rw [if_pos hk]
      intro p hp
      rcases List.mem_cons.mp hp with h1 | h2
      · rw [h1]
      · exact h p (List.mem_cons_of_mem _ h2)
    · rw [if_neg hk]
      intro p hp
      rcases List.mem_cons.mp hp with h1 | h2
      · exact h p (h1 ▸ List.mem_cons_self _ _)
      · exact ih hrest p h2

theorem registry_wf_load_row (acc : List (String × ComBaseModel)) (row : Row)
    (h : RegistryWF acc) : RegistryWF (load_row acc row) := by
  cases hmid : row.ModelID with
  | none => simpa [load_row, hmid] using h
  | some s =>
    by_cases hs : s = ""
    · simpa [load_row, hmid, hs] using h
    · cases hp : _parse_row row with
      | none => simpa [load_row, hmid, hs, hp] using h
      | some mdl =>
        have h2 := registry_wf_dict_set acc mdl h
        simpa [load_row, hmid, hs, hp, _register_model] using h2

theorem registry_wf_load (rows : List Row) :
    ∀ acc : List (String × ComBaseModel), RegistryWF acc →
      RegistryWF (rows.foldl load_row acc) := by
  induction rows with
  | nil =>
    intro acc h
    exact h
  | cons r rest ih =>
    intro acc h
    rw [List.foldl_cons]
    exact ih _ (registry_wf_load_row acc r h)

theorem get_model_model_id (models : List (String × ComBaseModel)) (org : ComBaseOrganism)
    (mt : ModelType) (f4 : Factor4Type) (m : ComBaseModel) (hwf : RegistryWF models)
    (h : get_model models org mt f4 = some m) : m.model_id = model_type_id mt := by
  unfold get_model at h
  have hmem := dict_get_mem _ _ _ h
  have hk := hwf _ hmem
  exact registry_key_model_id m mt org f4 hk.symm

/-- Claim C10: ModelType.from_model_id is total with a growth fallback, so
a record whose numeric model-type code lies outside 1, 2, 3 parses as a
growth model instead of being skipped; its registry key keeps the
original numeric code, while get_model only rebuilds keys from the codes
1, 2 and 3, so such a model is never returned by get_model on a registry
built by the load loop. -/
theorem C10_growth_fallback (n : Int) (rows : List Row)
    (registry : List (String × ComBaseModel)) (org : ComBaseOrganism) (mt : ModelType)
    (f4 : Factor4Type) (m : ComBaseModel)
    (hn : n ≠ 1 ∧ n ≠ 2 ∧ n ≠ 3)
    (hreg : registry = (load_from_csv [] rows).1)
    (hm : m.model_id = n) :
    ModelType.from_model_id n = ModelType.GROWTH ∧
    (∀ row mm, _parse_row row = some mm →
      mm.model_type = ModelType.from_model_id mm.model_id) ∧
    get_model registry org mt f4 ≠ some m := by
  refine ⟨?_, ?_, ?_⟩
  · unfold ModelType.from_model_id
    rw [if_neg hn.1, if_neg hn.2.1, if_neg hn.2.2]
  · intro row mm hp
    exact parse_row_model_type row mm hp
  · intro hcon
    have hwf : RegistryWF registry := by
      rw [hreg]
      unfold load_from_csv
      exact registry_wf_load rows [] (fun p hp => absurd hp (List.not_mem_nil p))
    have hid := get_model_model_id registry org mt f4 m hwf hcon
    rw [hm] at hid
    cases mt with
    | GROWTH => exact hn.1 hid
    | THERMAL_INACTIVATION => exact hn.2.1 hid
    | NON_THERMAL_SURVIVAL => exact hn.2.2 hid

/-- Witness for C10: the concrete code-7 record parses as a growth model,
and a model carrying code 7 is never returned from the registry it
loads into. -/
theorem C10_witness :
    ((7 : Int) ≠ 1 ∧ (7 : Int) ≠ 2 ∧ (7 : Int) ≠ 3) ∧
    m7.model_id = 7 ∧
    reg7 = (load_from_csv [] [row7]).1 ∧
    ModelType.from_model_id 7 = ModelType.GROWTH ∧
    (_parse_row row7).map (fun mm => mm.model_type) = some ModelType.GROWTH ∧
    (load_from_csv [] [row7]).2 = 1 ∧
    get_model reg7 ComBaseOrganism.LISTERIA_MONOCYTOGENES ModelType.GROWTH
      Factor4Type.NONE ≠ some m7 := by
  have hn : (7 : Int) ≠ 1 ∧ (7 : Int) ≠ 2 ∧ (7 : Int) ≠ 3 := by
    refine ⟨?_, ?_, ?_⟩ <;> decide
  have h := C10_growth_fallback 7 [row7] reg7 ComBaseOrganism.LISTERIA_MONOCYTOGENES
    ModelType.GROWTH Factor4Type.NONE m7 hn rfl rfl
  exact ⟨hn, rfl, rfl, h.1, rfl, rfl, h.2.2⟩
